import Mathlib

set_option autoImplicit false

/-!
# clip_search backend (`backend/app.js`): a shallow embedding

The Express application of `backend/app.js` is embedded as pure functions over an
explicit `World`: the file system, the file operations the application has performed,
the external scripts it has invoked and the responses it has sent.

Conventions of the embedding.

* A directory is identified by its normalized path string, a file by its directory and its
  name in it. `path.join` is the POSIX one (`pathJoin`): it drops `.` and empty segments and
  resolves `..`. Where the code joins a directory with a name that `readdir` listed, or with
  the `query-<now>.png` it built itself, the joined path is the pair `entryPath d f`.
* A request body is what `express.json`, `express.urlencoded` or `multer` left in `req.body`
  and `req.files`; `req.files` is missing when the body is not multipart.
* An exception that escapes a handler is recorded in `World.uncaught`; nothing is sent.
* `Date.now()` and `Math.round(Math.random() * 1E9)` are arguments (`now`, `rnd`).
* The scripts `indexUploadedImages`, `textQuery`, `imageQuery` (`backend/scripts/`) and
  `Buffer.from(_, 'base64')` are fields of `Env`; every theorem quantifies over them.
  A query script calls its error-first callback once, with an error or with filenames.
* An `async` handler and the callbacks it schedules run to completion, in order.
* `console.log` / `console.error` output is not part of the state.
-/

namespace ClipSearch

/-! ## Values -/

/-- One octet. -/
abbrev Byte := Fin 256

/-- The contents of a `Buffer` or of a file. -/
abbrev Bytes := List Byte

/-- The value of a request body field: missing, `null`, a string, or any other value (a
boolean, a number, an array, an object), of which the code observes only the truthiness and
the string conversion. -/
inductive JsVal where
  | undefined
  | null
  | str (s : String)
  | other (truthy : Bool) (display : String)
  deriving DecidableEq, Repr

/-- JavaScript truthiness (`!image` at line 84 is its negation). -/
def JsVal.truthy : JsVal → Bool
  | .undefined => false
  | .null => false
  | .str s => decide (s ≠ "")
  | .other t _ => t

/-- String conversion of a value inside a template literal. -/
def JsVal.display : JsVal → String
  | .undefined => "undefined"
  | .null => "null"
  | .str s => s
  | .other _ d => d

/-- A thrown `Error` (or the error handed to a callback), with its `message`. -/
structure JsError where
  message : String
  deriving DecidableEq, Repr

/-! ## Numbers as decimal strings -/

/-- The character of a decimal digit. -/
def digitChar (d : Nat) : Char := Char.ofNat (48 + d)

/-- Decimal digits of `n`, most significant first; `fuel` bounds the number of digits. -/
def decimalAux : Nat → Nat → List Char
  | 0, n => [digitChar (n % 10)]
  | fuel + 1, n =>
    if n < 10 then [digitChar n] else decimalAux fuel (n / 10) ++ [digitChar (n % 10)]

/-- The string JavaScript concatenates for a non-negative integer (below `1e21`). -/
def decimal (n : Nat) : String := String.mk (decimalAux n n)

/-- The number a digit string denotes. -/
def decimalValue (cs : List Char) : Nat :=
  cs.foldl (fun acc c => 10 * acc + (c.toNat - 48)) 0

/-! ## Stored upload names (`multer.diskStorage`, `filename`) -/

/-- Lines 33-36: `uniqueSuffix + '-' + file.originalname` with
`uniqueSuffix = Date.now() + '-' + Math.round(Math.random() * 1E9)`. -/
def filename (now rnd : Nat) (originalname : String) : String :=
  let uniqueSuffix := decimal now ++ "-" ++ decimal rnd
  uniqueSuffix ++ "-" ++ originalname

/-! ## Base64 (`Buffer.toString('base64')`) -/

/-- The base64 alphabet of RFC 4648. -/
def base64Alphabet : List Char :=
  "ABCDEFGHIJKLMNOPQRSTUVWXYZabcdefghijklmnopqrstuvwxyz0123456789+/".data

/-- The character of a six-bit group. -/
def base64Char (i : Nat) : Char := base64Alphabet.getD i 'A'

/-- Padded base64 of a byte sequence, three bytes to four characters. -/
def base64Chars : Bytes → List Char
  | [] => []
  | [a] => [base64Char (a.val / 4), base64Char (a.val % 4 * 16), '=', '=']
  | [a, b] =>
    [base64Char (a.val / 4), base64Char (a.val % 4 * 16 + b.val / 16),
      base64Char (b.val % 16 * 4), '=']
  | a :: b :: c :: rest =>
    base64Char (a.val / 4) :: base64Char (a.val % 4 * 16 + b.val / 16) ::
      base64Char (b.val % 16 * 4 + c.val / 64) :: base64Char (c.val % 64) :: base64Chars rest

/-- The value of `Buffer.from(data).toString('base64')`. -/
def base64Encode (data : Bytes) : String := String.mk (base64Chars data)

/-! ## The data URL prefix of a query image -/

/-- Removes `pre` from the front of `cs`, if it is there. -/
def dropPrefix? : List Char → List Char → Option (List Char)
  | [], cs => some cs
  | _ :: _, [] => none
  | p :: ps, c :: cs => if p = c then dropPrefix? ps cs else none

/-- The class `\w`: ASCII letters, digits and the underscore. -/
def isWordChar (c : Char) : Bool := c.isAlphanum || c == '_'

/-- Line 88: `image.replace(/^data:image\/\w+;base64,/, '')`. -/
def stripDataUrlPrefix (image : String) : String :=
  match dropPrefix? "data:image/".data image.data with
  | none => image
  | some rest =>
    if rest.takeWhile isWordChar = [] then image
    else
      match dropPrefix? ";base64,".data (rest.dropWhile isWordChar) with
      | none => image
      | some payload => String.mk payload

/-! ## The file system -/

/-- What a directory entry is: a regular file with its contents, or a subdirectory. -/
inductive Node where
  | file (data : Bytes)
  | dir
  deriving DecidableEq, Repr

/-- The entries of one directory, by name. -/
abbrev Listing := List (String × Node)

/-- The file system: the listing of each directory that exists. -/
abbrev FS := String → Option Listing

/-- A file path: a directory and a name in it. -/
structure Path where
  dir : String
  name : String
  deriving DecidableEq, Repr

/-- The value of `path.join(dir, name)` for the name of an entry of `dir`: where the code
joins a directory with a name that `readdir` listed or with the query file name it built. -/
def entryPath (dir name : String) : Path := ⟨dir, name⟩

/-- The segments of a path string: the pieces between its `'/'`. -/
def splitSlash : List Char → List (List Char)
  | [] => [[]]
  | c :: cs =>
    if c = '/' then [] :: splitSlash cs
    else
      match splitSlash cs with
      | [] => [[c]]
      | s :: ss => (c :: s) :: ss

/-- One segment in `normalizeString` of Node's `path`: `kept` holds the segments kept so far,
the last one first. Empty segments and `.` are dropped, `..` removes the last kept segment,
or is kept itself when there is none to remove and the path is relative. -/
def normalizeStep (allowAboveRoot : Bool) (kept : List (List Char)) (seg : List Char) :
    List (List Char) :=
  if seg = [] ∨ seg = ['.'] then kept
  else if seg = ['.', '.'] then
    match kept with
    | [] => if allowAboveRoot then [seg] else []
    | top :: rest =>
      if top = ['.', '.'] then (if allowAboveRoot then seg :: kept else kept) else rest
  else seg :: kept

/-- Segments joined by `'/'`. -/
def joinSegments : List (List Char) → List Char
  | [] => []
  | [s] => s
  | s :: rest => s ++ '/' :: joinSegments rest

/-- The path string of a directory given by its segments: `/` or `.` when there are none. -/
def dirString (isAbsolute : Bool) (segs : List (List Char)) : String :=
  match segs with
  | [] => if isAbsolute then "/" else "."
  | _ => String.mk ((if isAbsolute then ['/'] else []) ++ joinSegments segs)

/-- The value of `path.join(dir, name)` (POSIX): the non-empty arguments joined by `'/'` and
normalized, as the directory and the entry name it denotes. A path that denotes a directory
itself (no segment left, or a trailing `'/'`) has the empty entry name. -/
def pathJoin (dir name : String) : Path :=
  let joined : List Char :=
    if dir.data = [] then name.data
    else if name.data = [] then dir.data
    else dir.data ++ '/' :: name.data
  let isAbsolute : Bool := joined.head? = some '/'
  let trailing : Bool := joined.getLast? = some '/'
  match trailing, (splitSlash joined).foldl (normalizeStep (!isAbsolute)) [] with
  | _, [] => ⟨dirString isAbsolute [], ""⟩
  | true, kept => ⟨dirString isAbsolute kept.reverse, ""⟩
  | false, last :: revDir => ⟨dirString isAbsolute revDir.reverse, String.mk last⟩

/-- A name that is one path component: not empty, not `.` or `..`, and free of `'/'`. -/
def isSingleComponent (name : String) : Bool :=
  decide (name.data ≠ [] ∧ name.data ≠ ['.'] ∧ name.data ≠ ['.', '.'] ∧ '/' ∉ name.data)

/-- The entry called `name`, if there is one. -/
def lookupEntry : Listing → String → Option Node
  | [], _ => none
  | (n, x) :: rest, name => if n = name then some x else lookupEntry rest name

/-- Replaces the entry called `name`, or adds it. -/
def putEntry : Listing → String → Node → Listing
  | [], name, x => [(name, x)]
  | (n, y) :: rest, name, x =>
    if n = name then (n, x) :: rest else (n, y) :: putEntry rest name x

/-- Removes the entry called `name`. -/
def dropEntry : Listing → String → Listing
  | [], _ => []
  | (n, y) :: rest, name => if n = name then rest else (n, y) :: dropEntry rest name

/-- The file system with the listing of directory `d` replaced. -/
def FS.update (fs : FS) (d : String) (l : Listing) : FS :=
  fun d' => if d' = d then some l else fs d'

/-- The names `fs.readdir(d)` resolves to; `none` when it rejects (no such directory). -/
def FS.readdir (fs : FS) (d : String) : Option (List String) :=
  (fs d).map (fun l => l.map Prod.fst)

/-- The bytes `fs.readFile(p)` resolves to; `none` when it rejects (nothing there, or a
directory). -/
def FS.readFile (fs : FS) (p : Path) : Option Bytes :=
  match fs p.dir with
  | none => none
  | some l =>
    match lookupEntry l p.name with
    | some (.file data) => some data
    | _ => none

/-- The file system after `fs.writeFile(p, data)`; `none` when it rejects (no such directory,
or `p` names a directory). -/
def FS.writeFile (fs : FS) (p : Path) (data : Bytes) : Option FS :=
  match fs p.dir with
  | none => none
  | some l =>
    match lookupEntry l p.name with
    | some .dir => none
    | _ => some (FS.update fs p.dir (putEntry l p.name (.file data)))

/-- The file system after `fs.unlink(p)`; `none` when it rejects (nothing there, or a
directory: `unlink` does not remove directories). -/
def FS.unlink (fs : FS) (p : Path) : Option FS :=
  match fs p.dir with
  | none => none
  | some l =>
    match lookupEntry l p.name with
    | some (.file _) => some (FS.update fs p.dir (dropEntry l p.name))
    | _ => none

/-! ## Responses, external code, and the world -/

/-- One element of a query response. -/
structure ImageData where
  fileName : String
  imageData : String
  deriving DecidableEq, Repr

/-- A response body: text (`res.send(string)`), the image list (`res.json(imagesData)`), or
the object of the directory handler with its optional `error` and `indexingComplete`. -/
inductive Body where
  | text (s : String)
  | images (l : List ImageData)
  | object (message : String) (error : Option String) (indexingComplete : Option Bool)
  deriving DecidableEq, Repr

/-- A response: status code (200 unless `res.status` is called) and body. -/
structure Response where
  status : Nat
  body : Body
  deriving DecidableEq, Repr

/-- What a query script hands to its callback: `(error, _)` or `(null, filenames)`. -/
inductive QueryResult where
  | error (e : JsError)
  | ok (filenames : List String)
  deriving DecidableEq, Repr

/-- A file operation of the application. -/
inductive FsOp where
  | readdir (d : String)
  | readFile (p : Path)
  | writeFile (p : Path) (data : Bytes)
  | unlink (p : Path)
  deriving DecidableEq, Repr

/-- An invocation of one of the scripts. -/
inductive Call where
  | indexUploadedImages
  | textQuery (query : JsVal)
  | imageQuery (filePath : Path)
  deriving DecidableEq, Repr

/-- The code `app.js` calls and does not define. Each script maps the file system it finds
to its outcome and to the file system it leaves. -/
structure Env where
  indexUploadedImages : FS → Except JsError Unit × FS
  textQuery : JsVal → FS → QueryResult × FS
  imageQuery : Path → FS → QueryResult × FS
  bufferFromBase64 : String → Bytes

/-- The state the application acts on. -/
structure World where
  fs : FS
  ops : List FsOp
  calls : List Call
  sent : List Response
  uncaught : List JsError

namespace World

/-- Sends a response (`res.send`, `res.json`). -/
def send (w : World) (r : Response) : World :=
  { w with sent := w.sent ++ [r] }

/-- An exception escapes the handler: its promise rejects and no response is sent. -/
def throwUncaught (w : World) (e : JsError) : World :=
  { w with uncaught := w.uncaught ++ [e] }

/-- The application calls `fs.readdir`. -/
def readdir (w : World) (d : String) : Option (List String) × World :=
  (FS.readdir w.fs d, { w with ops := w.ops ++ [.readdir d] })

/-- The application calls `fs.readFile`. -/
def readFile (w : World) (p : Path) : Option Bytes × World :=
  (FS.readFile w.fs p, { w with ops := w.ops ++ [.readFile p] })

/-- The application calls `fs.writeFile`; the flag tells whether it resolved. -/
def writeFile (w : World) (p : Path) (data : Bytes) : Bool × World :=
  match FS.writeFile w.fs p data with
  | some fs' => (true, { w with fs := fs', ops := w.ops ++ [.writeFile p data] })
  | none => (false, { w with ops := w.ops ++ [.writeFile p data] })

/-- The application calls `fs.unlink`; the flag tells whether it resolved. -/
def unlink (w : World) (p : Path) : Bool × World :=
  match FS.unlink w.fs p with
  | some fs' => (true, { w with fs := fs', ops := w.ops ++ [.unlink p] })
  | none => (false, { w with ops := w.ops ++ [.unlink p] })

/-- The application calls `indexUploadedImages()`. -/
def indexUploadedImages (E : Env) (w : World) : Except JsError Unit × World :=
  ((E.indexUploadedImages w.fs).1,
    { w with fs := (E.indexUploadedImages w.fs).2, calls := w.calls ++ [.indexUploadedImages] })

/-- The application calls `textQuery(query, callback)`. -/
def textQuery (E : Env) (w : World) (query : JsVal) : QueryResult × World :=
  ((E.textQuery query w.fs).1,
    { w with fs := (E.textQuery query w.fs).2, calls := w.calls ++ [.textQuery query] })

/-- The application calls `imageQuery(filePath, callback)`. -/
def imageQuery (E : Env) (w : World) (filePath : Path) : QueryResult × World :=
  ((E.imageQuery filePath w.fs).1,
    { w with fs := (E.imageQuery filePath w.fs).2, calls := w.calls ++ [.imageQuery filePath] })

end World

/-! ## Clearing the directories (lines 10-27 and 158-168) -/

/-- One `fs.unlink(path.join(directory, file))` of the `map` at line 13, and whether every
`unlink` so far resolved. -/
def unlinkEach (directory : String) (acc : Bool × World) (file : String) : Bool × World :=
  (acc.1 && (acc.2.unlink (entryPath directory file)).1,
    (acc.2.unlink (entryPath directory file)).2)

/-- Lines 10-19. Every `unlink` of the `map` is started; `Promise.all` rejects when one of
them does, and the function rethrows. The flag is `true` when the function returns. -/
def clearDirectory (directory : String) (w : World) : Bool × World :=
  match w.readdir directory with
  | (none, w1) => (false, w1)
  | (some files, w1) => files.foldl (unlinkEach directory) (true, w1)

/-- Lines 22-27: the three `await`s of the startup function. The flag is `true` when it
completes; a rejected `await` ends it. -/
def startup (w : World) : Bool × World :=
  match clearDirectory "uploads" w with
  | (false, w1) => (false, w1)
  | (true, w1) =>
    match clearDirectory "index" w1 with
    | (false, w2) => (false, w2)
    | (true, w2) => clearDirectory "temp" w2

/-- Lines 161-168: the clearing step of `shutdown`. The `catch` only logs, so the step ends
in either case; the result is the world it leaves. -/
def shutdown (w : World) : World :=
  match clearDirectory "uploads" w with
  | (false, w1) => w1
  | (true, w1) =>
    match clearDirectory "index" w1 with
    | (false, w2) => w2
    | (true, w2) => (clearDirectory "temp" w2).2

/-! ## The query handlers (lines 52-133) -/

/-- Line 40: `path.join(__dirname, 'temp')`. -/
def tempImagePath (dirname : String) : String := dirname ++ "/temp"

/-- Lines 63-72 (and 107-114): one element of the `map`. -/
def readImage (w : World) (filename : String) : Option ImageData × World :=
  match w.readFile (pathJoin "uploads" filename) with
  | (none, w1) => (none, w1)
  | (some data, w1) =>
    (some ⟨filename, "data:image/png;base64," ++ base64Encode data⟩, w1)

/-- `Promise.all(filenamesArray.map(...))`: every read is issued, in order; the value is the
list of all elements when every read resolved, and a rejection otherwise. -/
def readImages : List String → World → Option (List ImageData) × World
  | [], w => (some [], w)
  | filename :: rest, w =>
    (match (readImage w filename).1, (readImages rest (readImage w filename).2).1 with
      | some x, some xs => some (x :: xs)
      | _, _ => none,
     (readImages rest (readImage w filename).2).2)

/-- Lines 54-79: the callback given to `textQuery`. -/
def textQueryCallback (result : QueryResult) (w : World) : World :=
  match result with
  | .error _ => w.send ⟨500, .text "Failed to process query."⟩
  | .ok filenames =>
    match readImages filenames w with
    | (some imagesData, w1) => w1.send ⟨200, .images imagesData⟩
    | (none, w1) => w1.send ⟨500, .text "Error processing images"⟩

/-- Lines 52-80: `POST /upload/text`. -/
def uploadText (E : Env) (query : JsVal) (w : World) : World :=
  textQueryCallback (w.textQuery E query).1 (w.textQuery E query).2

/-- Lines 99-128: the callback given to `imageQuery`. On an error it returns at line 102. -/
def imageQueryCallback (filePath : Path) (result : QueryResult) (w : World) : World :=
  match result with
  | .error _ => w.send ⟨500, .text "Failed to process image query."⟩
  | .ok filenames =>
    let w2 :=
      match readImages filenames w with
      | (some imagesData, w1) => w1.send ⟨200, .images imagesData⟩
      | (none, w1) => w1.send ⟨500, .text "Error processing images"⟩
    (w2.unlink filePath).2

/-- Line 92: the name of the query file. -/
def queryFileName (now : Nat) : String := "query-" ++ decimal now ++ ".png"

/-- Lines 92-93: `path.join(tempImagePath, fileName)`. -/
def queryFilePath (dirname : String) (now : Nat) : Path :=
  entryPath (tempImagePath dirname) (queryFileName now)

/-- Lines 82-133: `POST /upload/image`. `!image` holds for a missing, `null`, empty or
otherwise falsy `image`. A truthy `image` that is not a string has no `replace` method:
line 88, which is outside the `try` of line 91, throws a `TypeError`. -/
def uploadImage (E : Env) (dirname : String) (now : Nat) (image : JsVal) (w : World) : World :=
  match image with
  | .undefined => w.send ⟨400, .text "No image data provided."⟩
  | .null => w.send ⟨400, .text "No image data provided."⟩
  | .other false _ => w.send ⟨400, .text "No image data provided."⟩
  | .other true _ => w.throwUncaught ⟨"image.replace is not a function"⟩
  | .str image =>
    if image = "" then w.send ⟨400, .text "No image data provided."⟩
    else
      let base64Data := stripDataUrlPrefix image
      let buffer := E.bufferFromBase64 base64Data
      let filePath := queryFilePath dirname now
      match w.writeFile filePath buffer with
      | (false, w1) => w1.send ⟨500, .text "Failed to process image data"⟩
      | (true, w1) =>
        imageQueryCallback filePath (w1.imageQuery E filePath).1 (w1.imageQuery E filePath).2

/-! ## The directory handler (lines 135-156) -/

/-- A file of the batch as `multer` reports it. -/
structure UploadedFile where
  originalname : String
  filename : String
  deriving DecidableEq, Repr

/-- A request to `POST /upload/directory`: `req.files` and the fields of `req.body`.
`upload.array('files[]')` sets `req.files` to the array of the files it stored when the body
is multipart, and leaves it missing otherwise. -/
structure DirectoryRequest where
  files : Option (List UploadedFile)
  isLastBatch : JsVal
  currentBatch : JsVal
  totalBatches : JsVal
  totalFiles : JsVal

/-- Lines 135-156. `currentBatch`, `totalBatches` and the parsed `totalFiles` are only
logged. The log of line 142 evaluates `files.length`, which throws a `TypeError` when
`req.files` is missing, before the test of line 144. -/
def uploadDirectory (E : Env) (req : DirectoryRequest) (w : World) : World :=
  let isLastBatch := decide (req.isLastBatch = .str "true")
  match req.files with
  | none => w.throwUncaught ⟨"Cannot read properties of undefined (reading 'length')"⟩
  | some files =>
    if isLastBatch then
      match w.indexUploadedImages E with
      | (.ok _, w1) =>
        w1.send ⟨200, .object
          ("Indexing complete. " ++ req.totalFiles.display ++ " files indexed successfully.")
          none (some true)⟩
      | (.error error, w1) =>
        w1.send ⟨500, .object "Error during indexing" (some error.message) none⟩
    else
      w.send ⟨200, .object
        (decimal files.length ++ " files uploaded successfully. Awaiting more...") none none⟩

/-! ## Observations on responses, and sample data -/

/-- The `indexingComplete` field of a body, when it has one. -/
def Body.indexingComplete : Body → Option Bool
  | .object _ _ c => c
  | _ => none

/-- The file system that holds exactly the listed directories. -/
def mkFS : List (String × Listing) → FS
  | [], _ => none
  | (d, l) :: rest, d' => if d' = d then some l else mkFS rest d'

/-- A world in which nothing has happened yet. -/
def World.initial (fs : FS) : World := ⟨fs, [], [], [], []⟩

/-- Scripts that succeed, rank `ranking`, and leave the file system alone. -/
def rankingEnv (ranking : List String) : Env where
  indexUploadedImages := fun fs => (.ok (), fs)
  textQuery := fun _ fs => (.ok ranking, fs)
  imageQuery := fun _ fs => (.ok ranking, fs)
  bufferFromBase64 := fun _ => [137, 80, 78, 71]

/-- Scripts that fail with `message` and leave the file system alone. -/
def failingEnv (message : String) : Env where
  indexUploadedImages := fun fs => (.error ⟨message⟩, fs)
  textQuery := fun _ fs => (.error ⟨message⟩, fs)
  imageQuery := fun _ fs => (.error ⟨message⟩, fs)
  bufferFromBase64 := fun _ => [137, 80, 78, 71]

/-- A last batch of one file that declares five files in total. -/
def lastBatchOfFive : DirectoryRequest where
  files := some [⟨"c.png", "1700000000000-7-c.png"⟩]
  isLastBatch := .str "true"
  currentBatch := .str "2"
  totalBatches := .str "2"
  totalFiles := .str "5"

/-- A request with a JSON body `{"isLastBatch": "true", "totalFiles": "5"}`: `multer` skips
it, so `req.files` is missing. -/
def jsonLastBatch : DirectoryRequest where
  files := none
  isLastBatch := .str "true"
  currentBatch := .undefined
  totalBatches := .undefined
  totalFiles := .str "5"

/-- An upload store of two files, an empty index area and an empty query area. -/
def twoUploads : FS :=
  mkFS [("uploads", [("1-2-a.png", .file [1, 2, 3]), ("1700000000000-7-c.png", .file [4])]),
    ("index", []), ("/srv/backend/temp", [])]

/-- An upload store that holds a subdirectory, and a non-empty index area. -/
def uploadsWithSubdirectory : FS :=
  mkFS [("uploads", [("old", .dir)]), ("index", [("clip.index", .file [9])]), ("temp", [])]

/-- Files in all three areas that the lifecycle hooks clear. -/
def filesEverywhere : FS :=
  mkFS [("uploads", [("1-2-a.png", .file [1, 2, 3]), ("1-3-b.png", .file [4])]),
    ("index", [("clip.index", .file [9])]), ("temp", [("query-1.png", .file [5])])]

/-! ## Decimal strings and stored names -/

theorem digitChar_toNat (d : Nat) (h : d < 10) : (digitChar d).toNat - 48 = d := by
  interval_cases d <;> decide

theorem digitChar_ne_dash (d : Nat) (h : d < 10) : digitChar d ≠ '-' := by
  interval_cases d <;> decide

theorem decimalValue_snoc (cs : List Char) (c : Char) :
    decimalValue (cs ++ [c]) = 10 * decimalValue cs + (c.toNat - 48) := by
  simp [decimalValue, List.foldl_append]

theorem decimalValue_decimalAux :
    ∀ (fuel n : Nat), n ≤ fuel → decimalValue (decimalAux fuel n) = n := by
  intro fuel
  induction fuel with
  | zero =>
    intro n hn
    have h0 : n = 0 := Nat.le_zero.mp hn
    subst h0
    decide
  | succ k ih =>
    intro n hn
    unfold decimalAux
    by_cases h : n < 10
    · rw [if_pos h]
      have := decimalValue_snoc [] (digitChar n)
      simp only [List.nil_append] at this
      rw [this, digitChar_toNat n h]
      simp [decimalValue]
    · rw [if_neg h, decimalValue_snoc, ih (n / 10) (by omega),
        digitChar_toNat (n % 10) (Nat.mod_lt _ (by decide))]
      omega

theorem dash_not_mem_decimalAux : ∀ (fuel n : Nat), '-' ∉ decimalAux fuel n := by
  intro fuel
  induction fuel with
  | zero =>
    intro n hmem
    simp only [decimalAux, List.mem_singleton] at hmem
    exact digitChar_ne_dash (n % 10) (Nat.mod_lt _ (by decide)) hmem.symm
  | succ k ih =>
    intro n hmem
    unfold decimalAux at hmem
    by_cases h : n < 10
    · rw [if_pos h, List.mem_singleton] at hmem
      exact digitChar_ne_dash n h hmem.symm
    · rw [if_neg h, List.mem_append, List.mem_singleton] at hmem
      rcases hmem with hmem | hmem
      · exact ih (n / 10) hmem
      · exact digitChar_ne_dash (n % 10) (Nat.mod_lt _ (by decide)) hmem.symm

theorem decimal_data_injective (a b : Nat) (h : (decimal a).data = (decimal b).data) :
    a = b := by
  have ha := decimalValue_decimalAux a a (Nat.le_refl a)
  have hb := decimalValue_decimalAux b b (Nat.le_refl b)
  simp only [decimal] at h
  rw [h] at ha
  exact ha.symm.trans hb

theorem dash_not_mem_decimal (a : Nat) : '-' ∉ (decimal a).data :=
  dash_not_mem_decimalAux a a

/-- Two strings that are free of `'-'` and are each followed by a `'-'` are cut at the same
place. -/
theorem split_at_dash :
    ∀ (xs ys r r' : List Char), '-' ∉ xs → '-' ∉ ys →
      xs ++ '-' :: r = ys ++ '-' :: r' → xs = ys ∧ r = r' := by
  intro xs
  induction xs with
  | nil =>
    intro ys r r' _ hy h
    cases ys with
    | nil => simpa using h
    | cons y ys =>
      simp only [List.nil_append, List.cons_append, List.cons.injEq] at h
      exact absurd (by rw [← h.1]; exact List.mem_cons_self _ _) hy
  | cons x xs ih =>
    intro ys r r' hx hy h
    cases ys with
    | nil =>
      simp only [List.nil_append, List.cons_append, List.cons.injEq] at h
      exact absurd (by rw [h.1]; exact List.mem_cons_self _ _) hx
    | cons y ys =>
      simp only [List.cons_append, List.cons.injEq] at h
      have hx' : '-' ∉ xs := fun hm => hx (List.mem_cons_of_mem _ hm)
      have hy' : '-' ∉ ys := fun hm => hy (List.mem_cons_of_mem _ hm)
      obtain ⟨h1, h2⟩ := ih ys r r' hx' hy' h.2
      exact ⟨by rw [h.1, h1], h2⟩

theorem filename_data (now rnd : Nat) (originalname : String) :
    (filename now rnd originalname).data =
      (decimal now).data ++ '-' :: ((decimal rnd).data ++ '-' :: originalname.data) := by
  simp [filename, String.data_append]

/-- C10: the stored name `<now>-<rnd>-<originalname>` determines the triple it is built from
(two triples give the same stored name exactly when they agree in timestamp, random integer
and original name, whatever characters the original name holds), and the original name is
a suffix of the stored name. -/
theorem filename_injective (now rnd now' rnd' : Nat) (originalname originalname' : String) :
    (filename now rnd originalname = filename now' rnd' originalname' ↔
      now = now' ∧ rnd = rnd' ∧ originalname = originalname') ∧
    originalname.data <:+ (filename now rnd originalname).data := by
  refine ⟨⟨fun h => ?_, fun h => ?_⟩, ?_⟩
  · have hd := congrArg String.data h
    rw [filename_data, filename_data] at hd
    obtain ⟨h1, h2⟩ := split_at_dash _ _ _ _ (dash_not_mem_decimal now)
      (dash_not_mem_decimal now') hd
    obtain ⟨h3, h4⟩ := split_at_dash _ _ _ _ (dash_not_mem_decimal rnd)
      (dash_not_mem_decimal rnd') h2
    exact ⟨decimal_data_injective _ _ h1, decimal_data_injective _ _ h3, String.ext h4⟩
  · obtain ⟨h1, h2, h3⟩ := h
    rw [h1, h2, h3]
  · rw [filename_data]
    exact ⟨(decimal now).data ++ '-' :: ((decimal rnd).data ++ ['-']), by simp⟩

/-! ## The directory handler -/

theorem uploadDirectory_no_files (E : Env) (req : DirectoryRequest) (w : World)
    (h : req.files = none) :
    uploadDirectory E req w =
      w.throwUncaught ⟨"Cannot read properties of undefined (reading 'length')"⟩ := by
  simp only [uploadDirectory, h]

theorem uploadDirectory_last_ok (E : Env) (req : DirectoryRequest) (w : World)
    (files : List UploadedFile) (hf : req.files = some files)
    (hlast : req.isLastBatch = .str "true") (hok : (E.indexUploadedImages w.fs).1 = .ok ()) :
    uploadDirectory E req w = (w.indexUploadedImages E).2.send ⟨200, .object
      ("Indexing complete. " ++ req.totalFiles.display ++ " files indexed successfully.")
      none (some true)⟩ := by
  simp only [uploadDirectory, hf, hlast, decide_True, if_true, World.indexUploadedImages, hok]

theorem uploadDirectory_last_error (E : Env) (req : DirectoryRequest) (w : World)
    (files : List UploadedFile) (hf : req.files = some files)
    (hlast : req.isLastBatch = .str "true") (error : JsError)
    (herr : (E.indexUploadedImages w.fs).1 = .error error) :
    uploadDirectory E req w = (w.indexUploadedImages E).2.send
      ⟨500, .object "Error during indexing" (some error.message) none⟩ := by
  simp only [uploadDirectory, hf, hlast, decide_True, if_true, World.indexUploadedImages, herr]

theorem append_singleton_ne_self {α : Type} (l : List α) (a : α) : l ≠ l ++ [a] := by
  intro h
  have := congrArg List.length h
  simp at this

/-- C1 fails as stated: a request with a JSON body has `isLastBatch` equal to the string
`'true'` and no `req.files`; the handler throws at line 142, sends nothing and does not
invoke `indexUploadedImages`. -/
theorem uploadDirectory_index_calls_counterexample :
    jsonLastBatch.isLastBatch = .str "true" ∧
    (uploadDirectory (rankingEnv []) jsonLastBatch (World.initial twoUploads)).calls = [] ∧
    (uploadDirectory (rankingEnv []) jsonLastBatch (World.initial twoUploads)).sent = [] ∧
    (uploadDirectory (rankingEnv []) jsonLastBatch (World.initial twoUploads)).uncaught =
      [⟨"Cannot read properties of undefined (reading 'length')"⟩] := by
  decide

/-- C1, amended: a request to `POST /upload/directory` invokes `indexUploadedImages` exactly
once when it carries a files array (`req.files` is set) and its `isLastBatch` field is the
string `'true'`, and not at all otherwise, whatever the other fields and the files of the
batch are. -/
theorem uploadDirectory_index_calls (E : Env) (req : DirectoryRequest) (w : World) :
    (uploadDirectory E req w).calls =
      w.calls ++ (if req.files ≠ none ∧ req.isLastBatch = .str "true"
        then [Call.indexUploadedImages] else []) := by
  cases hf : req.files with
  | none =>
    rw [uploadDirectory_no_files E req w hf]
    simp [World.throwUncaught]
  | some files =>
    by_cases h : req.isLastBatch = .str "true"
    · cases hr : (E.indexUploadedImages w.fs).1 with
      | ok u =>
        rw [uploadDirectory_last_ok E req w files hf h hr]
        simp [World.indexUploadedImages, World.send, h]
      | error e =>
        rw [uploadDirectory_last_error E req w files hf h e hr]
        simp [World.indexUploadedImages, World.send, h]
    · simp [uploadDirectory, hf, h, World.send]

/-- C4: for a last-batch request, a response carries `indexingComplete: true` exactly when
`indexUploadedImages` was invoked and completed without throwing; when it was invoked and
threw, the only response is status 500 with the thrown error's message in `error` (and no
`indexingComplete`). A request that carries a files array gets exactly one response. -/
theorem uploadDirectory_last_batch_response (E : Env) (req : DirectoryRequest) (w : World)
    (hlast : req.isLastBatch = .str "true") :
    ∃ new, (uploadDirectory E req w).sent = w.sent ++ new ∧
      ((∃ r ∈ new, r.body.indexingComplete = some true) ↔
        ((uploadDirectory E req w).calls = w.calls ++ [Call.indexUploadedImages] ∧
          (E.indexUploadedImages w.fs).1 = .ok ())) ∧
      (∀ error, (uploadDirectory E req w).calls = w.calls ++ [Call.indexUploadedImages] →
        (E.indexUploadedImages w.fs).1 = .error error →
        new = [⟨500, .object "Error during indexing" (some error.message) none⟩]) ∧
      (∀ files, req.files = some files → ∃ r, new = [r]) := by
  cases hf : req.files with
  | none =>
    have hup := uploadDirectory_no_files E req w hf
    have hcalls : (uploadDirectory E req w).calls = w.calls := by rw [hup]; rfl
    refine ⟨[], ?_, ?_, ?_, ?_⟩
    · rw [hup, List.append_nil]; rfl
    · constructor
      · rintro ⟨r, hr, _⟩
        cases hr
      · rintro ⟨hc, _⟩
        rw [hcalls] at hc
        exact absurd hc (append_singleton_ne_self _ _)
    · intro error hc _
      rw [hcalls] at hc
      exact absurd hc (append_singleton_ne_self _ _)
    · intro files h
      cases h
  | some files =>
    cases hr : (E.indexUploadedImages w.fs).1 with
    | ok u =>
      have hup := uploadDirectory_last_ok E req w files hf hlast hr
      refine ⟨[⟨200, .object
        ("Indexing complete. " ++ req.totalFiles.display ++ " files indexed successfully.")
        none (some true)⟩], ?_, ?_, ?_, ?_⟩
      · rw [hup]; rfl
      · constructor
        · intro _
          refine ⟨?_, rfl⟩
          rw [hup]; rfl
        · intro _
          exact ⟨_, List.mem_singleton.mpr rfl, rfl⟩
      · intro error _ h
        cases h
      · intro _ _
        exact ⟨_, rfl⟩
    | error e =>
      have hup := uploadDirectory_last_error E req w files hf hlast e hr
      refine ⟨[⟨500, .object "Error during indexing" (some e.message) none⟩], ?_, ?_, ?_, ?_⟩
      · rw [hup]; rfl
      · constructor
        · rintro ⟨r, hmem, hic⟩
          rw [List.mem_singleton] at hmem
          subst hmem
          cases hic
        · rintro ⟨_, h⟩
          cases h
      · intro error _ h
        cases h
        rfl
      · intro _ _
        exact ⟨_, rfl⟩

/-- The response of C4 at a failing indexer: status 500 and the message of the error. -/
theorem uploadDirectory_last_batch_response_witness :
    (uploadDirectory (failingEnv "no model") lastBatchOfFive (World.initial twoUploads)).sent
      = [⟨500, .object "Error during indexing" (some "no model") none⟩] := by
  obtain ⟨new, h1, _, h3, _⟩ := uploadDirectory_last_batch_response (failingEnv "no model")
    lastBatchOfFive (World.initial twoUploads) rfl
  rw [h1, h3 ⟨"no model"⟩ rfl rfl]
  rfl

/-- C9 fails as stated: the upload store holds two files, the request declares five, and
the response reports five. -/
theorem uploadDirectory_reports_count_counterexample :
    FS.readdir twoUploads "uploads" = some ["1-2-a.png", "1700000000000-7-c.png"] ∧
    (uploadDirectory (rankingEnv []) lastBatchOfFive (World.initial twoUploads)).sent =
      [⟨200, .object "Indexing complete. 5 files indexed successfully." none (some true)⟩] ∧
    "Indexing complete. 5 files indexed successfully." ≠
      "Indexing complete. " ++ decimal 2 ++ " files indexed successfully." := by
  decide

/-- C9, amended: for a last-batch request whose indexing succeeds (`indexUploadedImages` is
invoked and returns), the number in the response message is the request's `totalFiles`
field as the caller sent it, whatever the upload store holds and however the files were
split across batches; it is the number of files in the upload store when the caller
declared that number. -/
theorem uploadDirectory_reports_totalFiles (E : Env) (req : DirectoryRequest) (w : World)
    (hlast : req.isLastBatch = .str "true")
    (hcalled : (uploadDirectory E req w).calls = w.calls ++ [Call.indexUploadedImages])
    (hok : (E.indexUploadedImages w.fs).1 = .ok ()) :
    (uploadDirectory E req w).sent = w.sent ++ [⟨200, .object
      ("Indexing complete. " ++ req.totalFiles.display ++ " files indexed successfully.")
      none (some true)⟩] ∧
    ∀ l, w.fs "uploads" = some l → req.totalFiles = .str (decimal l.length) →
      (uploadDirectory E req w).sent = w.sent ++ [⟨200, .object
        ("Indexing complete. " ++ decimal l.length ++ " files indexed successfully.")
        none (some true)⟩] := by
  have h1 : (uploadDirectory E req w).sent = w.sent ++ [⟨200, .object
      ("Indexing complete. " ++ req.totalFiles.display ++ " files indexed successfully.")
      none (some true)⟩] := by
    cases hf : req.files with
    | none =>
      rw [uploadDirectory_no_files E req w hf] at hcalled
      exact absurd hcalled (append_singleton_ne_self _ _)
    | some files =>
      rw [uploadDirectory_last_ok E req w files hf hlast hok]
      rfl
  refine ⟨h1, ?_⟩
  intro l _ ht
  rw [h1, ht]
  rfl

/-- The response of the amended C9 for a request that declares five files. -/
theorem uploadDirectory_reports_totalFiles_witness :
    (uploadDirectory (rankingEnv []) lastBatchOfFive (World.initial twoUploads)).sent =
      [] ++ [⟨200, .object
        ("Indexing complete. " ++ lastBatchOfFive.totalFiles.display ++
          " files indexed successfully.") none (some true)⟩] :=
  (uploadDirectory_reports_totalFiles (rankingEnv []) lastBatchOfFive
    (World.initial twoUploads) rfl rfl rfl).1

/-! ## Clearing the directories -/

theorem FS.unlink_other (fs fs' : FS) (p : Path) (h : FS.unlink fs p = some fs')
    (d' : String) (hd : d' ≠ p.dir) : fs' d' = fs d' := by
  unfold FS.unlink at h
  split at h
  · cases h
  · split at h
    · cases h
      simp [FS.update, hd]
    · cases h

theorem unlink_fs_other (w : World) (p : Path) (d' : String) (h : d' ≠ p.dir) :
    (w.unlink p).2.fs d' = w.fs d' := by
  unfold World.unlink
  cases hu : FS.unlink w.fs p with
  | none => rfl
  | some fs' => exact FS.unlink_other w.fs fs' p hu d' h

theorem foldl_unlinkEach_fs_other (d d' : String) (h : d' ≠ d) :
    ∀ (names : List String) (acc : Bool × World),
      (names.foldl (unlinkEach d) acc).2.fs d' = acc.2.fs d' := by
  intro names
  induction names with
  | nil => intro acc; rfl
  | cons n rest ih =>
    intro acc
    rw [List.foldl_cons, ih]
    exact unlink_fs_other acc.2 (entryPath d n) d' h

theorem unlink_head_file (w : World) (d n : String) (data : Bytes) (rest : Listing)
    (h : w.fs d = some ((n, Node.file data) :: rest)) :
    (w.unlink (entryPath d n)).1 = true ∧ (w.unlink (entryPath d n)).2.fs d = some rest := by
  unfold World.unlink FS.unlink
  simp [entryPath, h, lookupEntry, dropEntry, FS.update]

theorem foldl_unlinkEach_files (d : String) :
    ∀ (l : Listing) (acc : Bool × World), acc.2.fs d = some l → (∀ e ∈ l, e.2 ≠ Node.dir) →
      ((l.map Prod.fst).foldl (unlinkEach d) acc).1 = acc.1 ∧
      ((l.map Prod.fst).foldl (unlinkEach d) acc).2.fs d = some [] := by
  intro l
  induction l with
  | nil => intro acc h _; exact ⟨rfl, h⟩
  | cons e rest ih =>
    intro acc h hfiles
    obtain ⟨n, x⟩ := e
    cases x with
    | dir => exact absurd rfl (hfiles (n, Node.dir) (List.mem_cons_self _ _))
    | file data =>
      obtain ⟨h1, h2⟩ := unlink_head_file acc.2 d n data rest h
      have hrest : ∀ e ∈ rest, e.2 ≠ Node.dir :=
        fun e he => hfiles e (List.mem_cons_of_mem _ he)
      obtain ⟨h3, h4⟩ := ih (unlinkEach d acc n) h2 hrest
      simp only [List.map_cons, List.foldl_cons]
      refine ⟨?_, h4⟩
      rw [h3]
      simp [unlinkEach, h1]

theorem clearDirectory_fs_other (w : World) (d d' : String) (h : d' ≠ d) :
    (clearDirectory d w).2.fs d' = w.fs d' := by
  unfold clearDirectory World.readdir FS.readdir
  cases w.fs d with
  | none => rfl
  | some l =>
    simp only [Option.map_some']
    rw [foldl_unlinkEach_fs_other d d' h]

theorem clearDirectory_files (w : World) (d : String) (l : Listing) (h : w.fs d = some l)
    (hfiles : ∀ e ∈ l, e.2 ≠ Node.dir) :
    (clearDirectory d w).1 = true ∧ (clearDirectory d w).2.fs d = some [] := by
  unfold clearDirectory World.readdir FS.readdir
  simp only [h, Option.map_some']
  exact foldl_unlinkEach_files d l _ h hfiles

theorem clearDirectory_eq_of_files (w : World) (d : String) (l : Listing) (h : w.fs d = some l)
    (hfiles : ∀ e ∈ l, e.2 ≠ Node.dir) :
    clearDirectory d w = (true, (clearDirectory d w).2) :=
  Prod.ext (clearDirectory_files w d l h hfiles).1 rfl

theorem startup_files (w : World) (lu li lt : Listing)
    (hu : w.fs "uploads" = some lu) (hi : w.fs "index" = some li) (ht : w.fs "temp" = some lt)
    (hfu : ∀ e ∈ lu, e.2 ≠ Node.dir) (hfi : ∀ e ∈ li, e.2 ≠ Node.dir)
    (hft : ∀ e ∈ lt, e.2 ≠ Node.dir) :
    (startup w).1 = true ∧ (startup w).2.fs "uploads" = some [] ∧
      (startup w).2.fs "index" = some [] ∧ (startup w).2.fs "temp" = some [] ∧
      (shutdown w).fs = (startup w).2.fs := by
  have e1 := clearDirectory_eq_of_files w "uploads" lu hu hfu
  have u1 := (clearDirectory_files w "uploads" lu hu hfu).2
  have i1 : (clearDirectory "uploads" w).2.fs "index" = some li :=
    (clearDirectory_fs_other w "uploads" "index" (by decide)).trans hi
  have t1 : (clearDirectory "uploads" w).2.fs "temp" = some lt :=
    (clearDirectory_fs_other w "uploads" "temp" (by decide)).trans ht
  have e2 := clearDirectory_eq_of_files _ "index" li i1 hfi
  have i2 := (clearDirectory_files _ "index" li i1 hfi).2
  have u2 : (clearDirectory "index" (clearDirectory "uploads" w).2).2.fs "uploads" = some [] :=
    (clearDirectory_fs_other _ "index" "uploads" (by decide)).trans u1
  have t2 : (clearDirectory "index" (clearDirectory "uploads" w).2).2.fs "temp" = some lt :=
    (clearDirectory_fs_other _ "index" "temp" (by decide)).trans t1
  have r3 := clearDirectory_files _ "temp" lt t2 hft
  have hs : startup w =
      clearDirectory "temp" (clearDirectory "index" (clearDirectory "uploads" w).2).2 := by
    unfold startup
    rw [e1]
    simp only
    rw [e2]
  have hd : shutdown w =
      (clearDirectory "temp" (clearDirectory "index" (clearDirectory "uploads" w).2).2).2 := by
    unfold shutdown
    rw [e1]
    simp only
    rw [e2]
  rw [hs, hd]
  refine ⟨r3.1, ?_, ?_, r3.2, rfl⟩
  · exact (clearDirectory_fs_other _ "temp" "uploads" (by decide)).trans u2
  · exact (clearDirectory_fs_other _ "temp" "index" (by decide)).trans i2

/-- C6 fails as stated: with a subdirectory in the upload store, `clearDirectory` rejects
and leaves that entry, and the clearing step of `shutdown` ends with the upload store and
the index area still holding entries. -/
theorem shutdown_leaves_entries_counterexample :
    (clearDirectory "uploads" (World.initial uploadsWithSubdirectory)).1 = false ∧
    (clearDirectory "uploads" (World.initial uploadsWithSubdirectory)).2.fs "uploads" =
      some [("old", Node.dir)] ∧
    (shutdown (World.initial uploadsWithSubdirectory)).fs "uploads" = some [("old", Node.dir)] ∧
    (shutdown (World.initial uploadsWithSubdirectory)).fs "index" =
      some [("clip.index", Node.file [9])] := by
  decide

/-- C6, amended: when the uploads, index and temp directories hold no subdirectory,
whatever files they hold, the startup routine completes and leaves all three empty, and so
does the clearing step of `shutdown`; `clearDirectory d` on a directory without
subdirectories returns with `d` empty, and in every case it leaves each other directory as
it was. -/
theorem clearing_empties_file_directories (w : World) (lu li lt : Listing)
    (hu : w.fs "uploads" = some lu) (hi : w.fs "index" = some li) (ht : w.fs "temp" = some lt)
    (hfu : ∀ e ∈ lu, e.2 ≠ Node.dir) (hfi : ∀ e ∈ li, e.2 ≠ Node.dir)
    (hft : ∀ e ∈ lt, e.2 ≠ Node.dir) :
    ((startup w).1 = true ∧ (startup w).2.fs "uploads" = some [] ∧
      (startup w).2.fs "index" = some [] ∧ (startup w).2.fs "temp" = some []) ∧
    ((shutdown w).fs "uploads" = some [] ∧ (shutdown w).fs "index" = some [] ∧
      (shutdown w).fs "temp" = some []) ∧
    (∀ d l, w.fs d = some l → (∀ e ∈ l, e.2 ≠ Node.dir) →
      (clearDirectory d w).1 = true ∧ (clearDirectory d w).2.fs d = some []) ∧
    (∀ d d', d' ≠ d → (clearDirectory d w).2.fs d' = w.fs d') := by
  obtain ⟨h1, h2, h3, h4, h5⟩ := startup_files w lu li lt hu hi ht hfu hfi hft
  refine ⟨⟨h1, h2, h3, h4⟩, ⟨?_, ?_, ?_⟩, ?_, ?_⟩
  · rw [h5]; exact h2
  · rw [h5]; exact h3
  · rw [h5]; exact h4
  · intro d l hd hl
    exact clearDirectory_files w d l hd hl
  · intro d d' hd
    exact clearDirectory_fs_other w d d' hd

/-- The amended C6 on directories that all hold files: the clearing step of `shutdown`
leaves the three of them empty. -/
theorem clearing_empties_file_directories_witness :
    (shutdown (World.initial filesEverywhere)).fs "uploads" = some [] ∧
    (shutdown (World.initial filesEverywhere)).fs "index" = some [] ∧
    (shutdown (World.initial filesEverywhere)).fs "temp" = some [] :=
  (clearing_empties_file_directories (World.initial filesEverywhere)
    [("1-2-a.png", .file [1, 2, 3]), ("1-3-b.png", .file [4])]
    [("clip.index", .file [9])] [("query-1.png", .file [5])]
    rfl rfl rfl (by decide) (by decide) (by decide)).2.1

/-! ## Joined paths -/

theorem splitSlash_no_slash : ∀ cs : List Char, '/' ∉ cs → splitSlash cs = [cs] := by
  intro cs
  induction cs with
  | nil => intro _; rfl
  | cons c cs ih =>
    intro h
    have hc : c ≠ '/' := fun e => h (by rw [e]; exact List.mem_cons_self _ _)
    have hcs : '/' ∉ cs := fun hm => h (List.mem_cons_of_mem _ hm)
    simp only [splitSlash, hc, if_false, ih hcs]

theorem splitSlash_append_slash :
    ∀ xs ys : List Char, '/' ∉ xs → splitSlash (xs ++ '/' :: ys) = xs :: splitSlash ys := by
  intro xs
  induction xs with
  | nil => intro ys _; simp [splitSlash]
  | cons c cs ih =>
    intro ys h
    have hc : c ≠ '/' := fun e => h (by rw [e]; exact List.mem_cons_self _ _)
    have hcs : '/' ∉ cs := fun hm => h (List.mem_cons_of_mem _ hm)
    have e := ih ys hcs
    simp only [List.cons_append, splitSlash, hc, if_false, List.append_eq, e]

theorem getLast?_append_slash (xs cs : List Char) (h1 : cs ≠ []) (h4 : '/' ∉ cs) :
    (xs ++ '/' :: cs).getLast? ≠ some '/' := by
  obtain ⟨c, cs', rfl⟩ := List.exists_cons_of_ne_nil h1
  intro e
  rw [List.getLast?_append, List.getLast?_cons_cons] at e
  cases hl : (c :: cs').getLast? with
  | none => simp at hl
  | some x =>
    rw [hl] at e
    simp only [Option.or_some, Option.some.injEq] at e
    subst e
    exact h4 (List.mem_of_getLast?_eq_some hl)

/-- For a single path component, `path.join('uploads', name)` is the entry `name` of the
uploads directory. -/
theorem pathJoin_uploads_single (f : String) (h : isSingleComponent f = true) :
    pathJoin "uploads" f = entryPath "uploads" f := by
  obtain ⟨h1, h2, h3, h4⟩ := of_decide_eq_true h
  have hu : ("uploads" : String).data = ['u', 'p', 'l', 'o', 'a', 'd', 's'] := rfl
  have hsplit : splitSlash (['u', 'p', 'l', 'o', 'a', 'd', 's'] ++ '/' :: f.data) =
      [['u', 'p', 'l', 'o', 'a', 'd', 's'], f.data] := by
    rw [splitSlash_append_slash _ _ (by decide), splitSlash_no_slash _ h4]
  have hlast := getLast?_append_slash ['u', 'p', 'l', 'o', 'a', 'd', 's'] f.data h1 h4
  have hfold : List.foldl (normalizeStep true) []
      [['u', 'p', 'l', 'o', 'a', 'd', 's'], f.data] =
      [f.data, ['u', 'p', 'l', 'o', 'a', 'd', 's']] := by
    simp [normalizeStep, h1, h2, h3]
  simp only [pathJoin, hu, h1, if_false]
  have hne : (['u', 'p', 'l', 'o', 'a', 'd', 's'] : List Char) ≠ [] := by decide
  simp only [hne, if_false, hsplit, hlast, decide_False]
  simp [hfold, entryPath, dirString, joinSegments]

/-! ## Reading the ranked files -/

theorem readImage_snd (w : World) (f : String) :
    (readImage w f).2 = { w with ops := w.ops ++ [FsOp.readFile (pathJoin "uploads" f)] } := by
  unfold readImage World.readFile
  cases FS.readFile w.fs (pathJoin "uploads" f) <;> rfl

theorem readImage_fst (w : World) (f : String) :
    (readImage w f).1 = (FS.readFile w.fs (pathJoin "uploads" f)).map
      (fun data => ⟨f, "data:image/png;base64," ++ base64Encode data⟩) := by
  unfold readImage World.readFile
  cases FS.readFile w.fs (pathJoin "uploads" f) <;> rfl

theorem readImages_snd :
    ∀ (l : List String) (w : World), (readImages l w).2 =
      { w with ops := w.ops ++ l.map (fun f => FsOp.readFile (pathJoin "uploads" f)) } := by
  intro l
  induction l with
  | nil => intro w; simp [readImages]
  | cons f rest ih =>
    intro w
    simp only [readImages, ih, readImage_snd, List.map_cons, List.append_assoc,
      List.singleton_append]

theorem readImages_some :
    ∀ (l : List String) (w : World),
      (∀ f ∈ l, (FS.readFile w.fs (pathJoin "uploads" f)).isSome) →
      (readImages l w).1 = some (l.map fun f =>
        ⟨f, "data:image/png;base64," ++
          base64Encode ((FS.readFile w.fs (pathJoin "uploads" f)).getD [])⟩) := by
  intro l
  induction l with
  | nil => intro w _; rfl
  | cons f rest ih =>
    intro w h
    have hf := h f (List.mem_cons_self _ _)
    have hrest : ∀ g ∈ rest, (FS.readFile (readImage w f).2.fs (pathJoin "uploads" g)).isSome := by
      intro g hg
      rw [readImage_snd]
      exact h g (List.mem_cons_of_mem _ hg)
    have ih' := ih (readImage w f).2 hrest
    obtain ⟨data, hdata⟩ := Option.isSome_iff_exists.mp hf
    simp only [readImages]
    rw [ih', readImage_fst, hdata]
    simp only [Option.map_some', List.map_cons, Option.getD_some, readImage_snd, hdata]

theorem readImages_none :
    ∀ (l : List String) (w : World) (f : String), f ∈ l →
      FS.readFile w.fs (pathJoin "uploads" f) = none → (readImages l w).1 = none := by
  intro l
  induction l with
  | nil => intro w f hf; cases hf
  | cons g rest ih =>
    intro w f hf hnone
    simp only [readImages]
    rcases List.mem_cons.mp hf with rfl | hmem
    · rw [readImage_fst, hnone]
      rfl
    · have hnone' : FS.readFile (readImage w g).2.fs (pathJoin "uploads" f) = none := by
        rw [readImage_snd]; exact hnone
      rw [ih (readImage w g).2 f hmem hnone']
      cases (readImage w g).1 <;> rfl

theorem readImages_fileNames :
    ∀ (l : List String) (w : World) (xs : List ImageData),
      (readImages l w).1 = some xs → xs.map ImageData.fileName = l := by
  intro l
  induction l with
  | nil =>
    intro w xs h
    simp only [readImages, Option.some.injEq] at h
    rw [← h]; rfl
  | cons f rest ih =>
    intro w xs h
    simp only [readImages] at h
    cases h1 : (readImage w f).1 with
    | none => rw [h1] at h; cases h
    | some x =>
      cases h2 : (readImages rest (readImage w f).2).1 with
      | none => rw [h1, h2] at h; cases h
      | some ys =>
        rw [h1, h2] at h
        simp only [Option.some.injEq] at h
        rw [← h, List.map_cons, ih _ ys h2]
        rw [readImage_fst] at h1
        cases hr : FS.readFile w.fs (pathJoin "uploads" f) with
        | none => rw [hr] at h1; cases h1
        | some data =>
          rw [hr] at h1
          simp only [Option.map_some', Option.some.injEq] at h1
          rw [← h1]

/-- The response of lines 74-77 (and 116-119) for a result of `Promise.all`. -/
theorem textQueryCallback_ok (l : List String) (w : World) :
    textQueryCallback (.ok l) w = (readImages l w).2.send
      (match (readImages l w).1 with
        | some imagesData => ⟨200, .images imagesData⟩
        | none => ⟨500, .text "Error processing images"⟩) := by
  rcases h : readImages l w with ⟨_ | x, w1⟩ <;> simp only [textQueryCallback, h]

theorem imageQueryCallback_ok (filePath : Path) (l : List String) (w : World) :
    imageQueryCallback filePath (.ok l) w = (((readImages l w).2.send
      (match (readImages l w).1 with
        | some imagesData => ⟨200, .images imagesData⟩
        | none => ⟨500, .text "Error processing images"⟩)).unlink filePath).2 := by
  rcases h : readImages l w with ⟨_ | x, w1⟩ <;> simp only [imageQueryCallback, h]

theorem unlink_sent (w : World) (p : Path) : (w.unlink p).2.sent = w.sent := by
  unfold World.unlink
  cases FS.unlink w.fs p <;> rfl

theorem unlink_ops (w : World) (p : Path) : (w.unlink p).2.ops = w.ops ++ [FsOp.unlink p] := by
  unfold World.unlink
  cases FS.unlink w.fs p <;> rfl

/-! ## The query handlers, case by case -/

theorem uploadText_error (E : Env) (query : JsVal) (w : World) (e : JsError)
    (h : (E.textQuery query w.fs).1 = .error e) :
    uploadText E query w =
      (w.textQuery E query).2.send ⟨500, .text "Failed to process query."⟩ := by
  simp only [uploadText, World.textQuery, h, textQueryCallback]

theorem uploadText_ok (E : Env) (query : JsVal) (w : World) (l : List String)
    (h : (E.textQuery query w.fs).1 = .ok l) :
    uploadText E query w = (readImages l (w.textQuery E query).2).2.send
      (match (readImages l (w.textQuery E query).2).1 with
        | some imagesData => ⟨200, .images imagesData⟩
        | none => ⟨500, .text "Error processing images"⟩) := by
  have h' : (w.textQuery E query).1 = .ok l := h
  rw [uploadText, h', textQueryCallback_ok]

theorem uploadImage_write_failed (E : Env) (dirname : String) (now : Nat) (image : String)
    (w : World) (himage : image ≠ "")
    (hw : FS.writeFile w.fs (queryFilePath dirname now)
      (E.bufferFromBase64 (stripDataUrlPrefix image)) = none) :
    uploadImage E dirname now (.str image) w =
      World.send { w with ops := w.ops ++ [FsOp.writeFile (queryFilePath dirname now)
        (E.bufferFromBase64 (stripDataUrlPrefix image))] }
        ⟨500, .text "Failed to process image data"⟩ := by
  simp only [uploadImage, himage, if_false, World.writeFile, hw]

theorem uploadImage_written (E : Env) (dirname : String) (now : Nat) (image : String)
    (w : World) (fs1 : FS) (himage : image ≠ "")
    (hw : FS.writeFile w.fs (queryFilePath dirname now)
      (E.bufferFromBase64 (stripDataUrlPrefix image)) = some fs1) :
    uploadImage E dirname now (.str image) w =
      imageQueryCallback (queryFilePath dirname now)
        (E.imageQuery (queryFilePath dirname now) fs1).1
        ⟨(E.imageQuery (queryFilePath dirname now) fs1).2,
          w.ops ++ [FsOp.writeFile (queryFilePath dirname now)
            (E.bufferFromBase64 (stripDataUrlPrefix image))],
          w.calls ++ [Call.imageQuery (queryFilePath dirname now)], w.sent, w.uncaught⟩ := by
  simp only [uploadImage, himage, if_false, World.writeFile, hw, World.imageQuery]

/-! ## Query responses -/

/-- C2: when `textQuery` (resp. `imageQuery`) hands back a ranked sequence of filenames and
every one of them is readable in the uploads directory, the one response of
`POST /upload/text` (resp. `POST /upload/image`) is the list that has, for each ranked
filename in order, the entry with that `fileName` and with `imageData` equal to
`data:image/png;base64,` followed by the base64 of the file's bytes. -/
theorem query_response_preserves_ranking (E : Env) (w : World) (filenames : List String) :
    (∀ query,
      (E.textQuery query w.fs).1 = .ok filenames →
      (∀ f ∈ filenames,
        (FS.readFile (E.textQuery query w.fs).2 (pathJoin "uploads" f)).isSome) →
      (uploadText E query w).sent = w.sent ++ [⟨200, .images (filenames.map fun f =>
        ⟨f, "data:image/png;base64," ++ base64Encode
          ((FS.readFile (E.textQuery query w.fs).2 (pathJoin "uploads" f)).getD [])⟩)⟩]) ∧
    (∀ dirname now image fs1,
      image ≠ "" →
      FS.writeFile w.fs (queryFilePath dirname now)
        (E.bufferFromBase64 (stripDataUrlPrefix image)) = some fs1 →
      (E.imageQuery (queryFilePath dirname now) fs1).1 = .ok filenames →
      (∀ f ∈ filenames,
        (FS.readFile (E.imageQuery (queryFilePath dirname now) fs1).2
          (pathJoin "uploads" f)).isSome) →
      (uploadImage E dirname now (.str image) w).sent = w.sent ++ [⟨200, .images
        (filenames.map fun f => ⟨f, "data:image/png;base64," ++ base64Encode
          ((FS.readFile (E.imageQuery (queryFilePath dirname now) fs1).2
            (pathJoin "uploads" f)).getD [])⟩)⟩]) := by
  constructor
  · intro query hres hread
    rw [uploadText_ok E query w filenames hres,
      readImages_some filenames (w.textQuery E query).2 hread, readImages_snd]
    rfl
  · intro dirname now image fs1 himage hw hres hread
    rw [uploadImage_written E dirname now image w fs1 himage hw, hres, imageQueryCallback_ok,
      unlink_sent, readImages_some filenames _ hread, readImages_snd]
    rfl

/-- C2 on a ranking of two stored files: the response lists them in the ranked order. -/
theorem query_response_preserves_ranking_witness :
    (uploadText (rankingEnv ["1700000000000-7-c.png", "1-2-a.png"]) (.str "a cat")
      (World.initial twoUploads)).sent =
      [⟨200, .images [⟨"1700000000000-7-c.png", "data:image/png;base64,BA=="⟩,
        ⟨"1-2-a.png", "data:image/png;base64,AQID"⟩]⟩] :=
  (query_response_preserves_ranking (rankingEnv ["1700000000000-7-c.png", "1-2-a.png"])
    (World.initial twoUploads) ["1700000000000-7-c.png", "1-2-a.png"]).1 (.str "a cat") rfl
    (by decide)

theorem uploadText_response (E : Env) (w : World) (query : JsVal) :
    ∃ r, (uploadText E query w).sent = w.sent ++ [r] ∧
      ((∃ filenames imagesData, (E.textQuery query w.fs).1 = .ok filenames ∧
          r = ⟨200, .images imagesData⟩ ∧
          imagesData.map ImageData.fileName = filenames) ∨
        (r.status = 500 ∧ ∃ s, r.body = .text s)) ∧
      (∀ e, (E.textQuery query w.fs).1 = .error e →
        r = ⟨500, .text "Failed to process query."⟩ ∧ (uploadText E query w).ops = w.ops) ∧
      (∀ filenames f, (E.textQuery query w.fs).1 = .ok filenames → f ∈ filenames →
        FS.readFile (E.textQuery query w.fs).2 (pathJoin "uploads" f) = none →
        r = ⟨500, .text "Error processing images"⟩) := by
  cases hres : (E.textQuery query w.fs).1 with
  | error e =>
    refine ⟨⟨500, .text "Failed to process query."⟩, ?_, Or.inr ⟨rfl, _, rfl⟩, ?_, ?_⟩
    · rw [uploadText_error E query w e hres]; rfl
    · intro e' _
      refine ⟨rfl, ?_⟩
      rw [uploadText_error E query w e hres]; rfl
    · intro filenames f h
      cases h
  | ok l =>
    have hup := uploadText_ok E query w l hres
    cases hr : (readImages l (w.textQuery E query).2).1 with
    | some xs =>
      rw [hr] at hup
      refine ⟨⟨200, .images xs⟩, ?_, Or.inl ⟨l, xs, rfl, rfl, ?_⟩, ?_, ?_⟩
      · rw [hup, readImages_snd]; rfl
      · exact readImages_fileNames l _ xs hr
      · intro e h
        cases h
      · intro filenames f h hf hnone
        cases h
        have := readImages_none l (w.textQuery E query).2 f hf hnone
        rw [hr] at this
        cases this
    | none =>
      rw [hr] at hup
      refine ⟨⟨500, .text "Error processing images"⟩, ?_, Or.inr ⟨rfl, _, rfl⟩, ?_, ?_⟩
      · rw [hup, readImages_snd]; rfl
      · intro e h
        cases h
      · intro filenames f _ _ _
        rfl

theorem uploadImage_response (E : Env) (w : World) (dirname : String) (now : Nat)
    (image : String) (himage : image ≠ "") :
    ∃ r, (uploadImage E dirname now (.str image) w).sent = w.sent ++ [r] ∧
      ((∃ fs1 filenames imagesData,
          FS.writeFile w.fs (queryFilePath dirname now)
            (E.bufferFromBase64 (stripDataUrlPrefix image)) = some fs1 ∧
          (E.imageQuery (queryFilePath dirname now) fs1).1 = .ok filenames ∧
          r = ⟨200, .images imagesData⟩ ∧
          imagesData.map ImageData.fileName = filenames) ∨
        (r.status = 500 ∧ ∃ s, r.body = .text s)) ∧
      (∀ fs1 e,
        FS.writeFile w.fs (queryFilePath dirname now)
          (E.bufferFromBase64 (stripDataUrlPrefix image)) = some fs1 →
        (E.imageQuery (queryFilePath dirname now) fs1).1 = .error e →
        r = ⟨500, .text "Failed to process image query."⟩ ∧
        (uploadImage E dirname now (.str image) w).ops =
          w.ops ++ [FsOp.writeFile (queryFilePath dirname now)
            (E.bufferFromBase64 (stripDataUrlPrefix image))]) ∧
      (∀ fs1 filenames f,
        FS.writeFile w.fs (queryFilePath dirname now)
          (E.bufferFromBase64 (stripDataUrlPrefix image)) = some fs1 →
        (E.imageQuery (queryFilePath dirname now) fs1).1 = .ok filenames → f ∈ filenames →
        FS.readFile (E.imageQuery (queryFilePath dirname now) fs1).2 (pathJoin "uploads" f)
          = none →
        r = ⟨500, .text "Error processing images"⟩) := by
  cases hw : FS.writeFile w.fs (queryFilePath dirname now)
      (E.bufferFromBase64 (stripDataUrlPrefix image)) with
  | none =>
    refine ⟨⟨500, .text "Failed to process image data"⟩, ?_, Or.inr ⟨rfl, _, rfl⟩, ?_, ?_⟩
    · rw [uploadImage_write_failed E dirname now image w himage hw]; rfl
    · intro fs1 e h
      cases h
    · intro fs1 filenames f h
      cases h
  | some fs1 =>
    have hup := uploadImage_written E dirname now image w fs1 himage hw
    cases hres : (E.imageQuery (queryFilePath dirname now) fs1).1 with
    | error e =>
      rw [hres] at hup
      refine ⟨⟨500, .text "Failed to process image query."⟩, ?_, Or.inr ⟨rfl, _, rfl⟩, ?_, ?_⟩
      · rw [hup]; rfl
      · intro fs2 e' h _
        refine ⟨rfl, ?_⟩
        rw [hup]; rfl
      · intro fs2 filenames f h h2
        cases h
        rw [hres] at h2
        cases h2
    | ok l =>
      rw [hres, imageQueryCallback_ok] at hup
      cases hr : (readImages l
          ⟨(E.imageQuery (queryFilePath dirname now) fs1).2,
            w.ops ++ [FsOp.writeFile (queryFilePath dirname now)
              (E.bufferFromBase64 (stripDataUrlPrefix image))],
            w.calls ++ [Call.imageQuery (queryFilePath dirname now)], w.sent, w.uncaught⟩).1 with
      | some xs =>
        rw [hr] at hup
        refine ⟨⟨200, .images xs⟩, ?_, Or.inl ⟨fs1, l, xs, rfl, hres, rfl, ?_⟩, ?_, ?_⟩
        · rw [hup, unlink_sent, readImages_snd]; rfl
        · exact readImages_fileNames l _ xs hr
        · intro fs2 e h h2
          cases h
          rw [hres] at h2
          cases h2
        · intro fs2 filenames f h h2 hf hnone
          cases h
          rw [hres] at h2
          cases h2
          have := readImages_none l
            ⟨(E.imageQuery (queryFilePath dirname now) fs1).2,
              w.ops ++ [FsOp.writeFile (queryFilePath dirname now)
                (E.bufferFromBase64 (stripDataUrlPrefix image))],
              w.calls ++ [Call.imageQuery (queryFilePath dirname now)], w.sent, w.uncaught⟩ f hf hnone
          rw [hr] at this
          cases this
      | none =>
        rw [hr] at hup
        refine ⟨⟨500, .text "Error processing images"⟩, ?_, Or.inr ⟨rfl, _, rfl⟩, ?_, ?_⟩
        · rw [hup, unlink_sent, readImages_snd]; rfl
        · intro fs2 e h h2
          cases h
          rw [hres] at h2
          cases h2
        · intro fs2 filenames f _ _ _ _
          rfl

/-- C3 fails as stated: an image request without an image gets the 400 of line 85, which is
neither the result list nor a 500; and a request whose `image` is a truthy value that is not
a string (the JSON number `123`) gets no response, line 88 throwing outside the `try`. -/
theorem query_response_counterexample :
    (uploadImage (rankingEnv ["1-2-a.png"]) "/srv/backend" 1700000000000 .undefined
      (World.initial twoUploads)).sent = [⟨400, .text "No image data provided."⟩] ∧
    (uploadImage (rankingEnv ["1-2-a.png"]) "/srv/backend" 1700000000000 (.other true "123")
      (World.initial twoUploads)).sent = [] ∧
    (uploadImage (rankingEnv ["1-2-a.png"]) "/srv/backend" 1700000000000 (.other true "123")
      (World.initial twoUploads)).uncaught = [⟨"image.replace is not a function"⟩] := by
  decide

/-- C3, amended: a text request, and an image request whose `image` is a non-empty string,
get exactly one response, which is either the complete list (one entry per ranked filename,
in order) or a status 500 text response: when the query script reports an error the
response is 500 and the handler reads no upload file, and when one of the ranked files
cannot be read the response is 500, not a shorter list. An image request whose `image` is
missing, `null`, empty or otherwise falsy gets exactly one response, the 400. -/
theorem query_response_complete_or_error (E : Env) (w : World) :
    (∀ query, ∃ r, (uploadText E query w).sent = w.sent ++ [r] ∧
      ((∃ filenames imagesData, (E.textQuery query w.fs).1 = .ok filenames ∧
          r = ⟨200, .images imagesData⟩ ∧
          imagesData.map ImageData.fileName = filenames) ∨
        (r.status = 500 ∧ ∃ s, r.body = .text s)) ∧
      (∀ e, (E.textQuery query w.fs).1 = .error e →
        r = ⟨500, .text "Failed to process query."⟩ ∧ (uploadText E query w).ops = w.ops) ∧
      (∀ filenames f, (E.textQuery query w.fs).1 = .ok filenames → f ∈ filenames →
        FS.readFile (E.textQuery query w.fs).2 (pathJoin "uploads" f) = none →
        r = ⟨500, .text "Error processing images"⟩)) ∧
    (∀ dirname now request,
      (request.truthy = false →
        (uploadImage E dirname now request w).sent =
          w.sent ++ [⟨400, .text "No image data provided."⟩]) ∧
      (∀ image, request = .str image → image ≠ "" →
      ∃ r, (uploadImage E dirname now request w).sent = w.sent ++ [r] ∧
      ((∃ fs1 filenames imagesData,
          FS.writeFile w.fs (queryFilePath dirname now)
            (E.bufferFromBase64 (stripDataUrlPrefix image)) = some fs1 ∧
          (E.imageQuery (queryFilePath dirname now) fs1).1 = .ok filenames ∧
          r = ⟨200, .images imagesData⟩ ∧
          imagesData.map ImageData.fileName = filenames) ∨
        (r.status = 500 ∧ ∃ s, r.body = .text s)) ∧
      (∀ fs1 e,
        FS.writeFile w.fs (queryFilePath dirname now)
          (E.bufferFromBase64 (stripDataUrlPrefix image)) = some fs1 →
        (E.imageQuery (queryFilePath dirname now) fs1).1 = .error e →
        r = ⟨500, .text "Failed to process image query."⟩ ∧
        (uploadImage E dirname now request w).ops =
          w.ops ++ [FsOp.writeFile (queryFilePath dirname now)
            (E.bufferFromBase64 (stripDataUrlPrefix image))]) ∧
      (∀ fs1 filenames f,
        FS.writeFile w.fs (queryFilePath dirname now)
          (E.bufferFromBase64 (stripDataUrlPrefix image)) = some fs1 →
        (E.imageQuery (queryFilePath dirname now) fs1).1 = .ok filenames → f ∈ filenames →
        FS.readFile (E.imageQuery (queryFilePath dirname now) fs1).2 (pathJoin "uploads" f)
          = none →
        r = ⟨500, .text "Error processing images"⟩))) := by
  refine ⟨fun query => uploadText_response E w query, fun dirname now request => ⟨?_, ?_⟩⟩
  · intro hfalsy
    cases request with
    | undefined => rfl
    | null => rfl
    | str s =>
      have hs : s = "" := by simpa [JsVal.truthy] using hfalsy
      subst hs
      rfl
    | other t d =>
      have ht : t = false := hfalsy
      subst ht
      rfl
  · intro image h himage
    subst h
    exact uploadImage_response E w dirname now image himage

/-- The amended C3 on a ranking that names a file the upload store does not hold: the one
response of the image handler is the 500 of line 119, not the one-entry list of the
readable file. -/
theorem query_response_complete_or_error_witness :
    ∃ r, (uploadImage (rankingEnv ["1-2-a.png", "gone.png"]) "/srv/backend" 1700000000000
        (.str "data:image/png;base64,iVBORw==") (World.initial twoUploads)).sent = [] ++ [r] ∧
      r = ⟨500, .text "Error processing images"⟩ := by
  obtain ⟨r, h1, h2⟩ :=
    ((query_response_complete_or_error (rankingEnv ["1-2-a.png", "gone.png"])
      (World.initial twoUploads)).2 "/srv/backend" 1700000000000
      (.str "data:image/png;base64,iVBORw==")).2 "data:image/png;base64,iVBORw==" rfl
      (by decide)
  exact ⟨r, h1, h2.2.2 _ ["1-2-a.png", "gone.png"] "gone.png" rfl rfl (by decide) (by decide)⟩

/-! ## Requests without an image -/

/-- C7: a request to `POST /upload/image` whose `image` is missing, `null` or the empty
string gets the one response 400; the handler performs no file operation (so writes nothing
into the temp directory), does not invoke `imageQuery` or any other script, and leaves the
file system as it was. -/
theorem uploadImage_no_image (E : Env) (dirname : String) (now : Nat) (image : JsVal)
    (w : World) (h : image = .undefined ∨ image = .null ∨ image = .str "") :
    (uploadImage E dirname now image w).sent =
      w.sent ++ [⟨400, .text "No image data provided."⟩] ∧
    (uploadImage E dirname now image w).ops = w.ops ∧
    (uploadImage E dirname now image w).calls = w.calls ∧
    (uploadImage E dirname now image w).fs = w.fs := by
  rcases h with rfl | rfl | rfl <;> exact ⟨rfl, rfl, rfl, rfl⟩

/-- C7 on a request whose `image` is the empty string. -/
theorem uploadImage_no_image_witness :
    (uploadImage (rankingEnv []) "/srv/backend" 1700000000000 (.str "")
      (World.initial twoUploads)).sent = [] ++ [⟨400, .text "No image data provided."⟩] ∧
    (uploadImage (rankingEnv []) "/srv/backend" 1700000000000 (.str "")
      (World.initial twoUploads)).ops = [] :=
  ⟨(uploadImage_no_image (rankingEnv []) "/srv/backend" 1700000000000 (.str "")
      (World.initial twoUploads) (Or.inr (Or.inr rfl))).1,
    (uploadImage_no_image (rankingEnv []) "/srv/backend" 1700000000000 (.str "")
      (World.initial twoUploads) (Or.inr (Or.inr rfl))).2.1⟩

/-! ## The file operations of the query handlers -/

theorem FS.writeFile_other (fs fs' : FS) (p : Path) (data : Bytes)
    (h : FS.writeFile fs p data = some fs') (d' : String) (hd : d' ≠ p.dir) :
    fs' d' = fs d' := by
  unfold FS.writeFile at h
  split at h
  · cases h
  · split at h
    · cases h
    · cases h
      simp [FS.update, hd]

theorem tempImagePath_ne (dirname : String) :
    tempImagePath dirname ≠ "uploads" ∧ tempImagePath dirname ≠ "index" := by
  have e : ("/temp" : String).data = ['/', 't', 'e', 'm', 'p'] := rfl
  constructor
  · intro h
    have h' := congrArg (fun s : String => s.data.reverse.head?) h
    simp [tempImagePath, String.data_append, e] at h'
  · intro h
    have h' := congrArg (fun s : String => s.data.reverse.head?) h
    simp [tempImagePath, String.data_append, e] at h'

theorem uploadText_ops (E : Env) (w : World) (query : JsVal) :
    ∃ new, (uploadText E query w).ops = w.ops ++ new ∧
      (∀ op ∈ new, ∃ f, (∃ l, (E.textQuery query w.fs).1 = .ok l ∧ f ∈ l) ∧
        op = FsOp.readFile (pathJoin "uploads" f)) ∧
      (uploadText E query w).fs = (E.textQuery query w.fs).2 := by
  cases hres : (E.textQuery query w.fs).1 with
  | error e =>
    refine ⟨[], ?_, ?_, ?_⟩
    · rw [uploadText_error E query w e hres, List.append_nil]; rfl
    · intro op hop
      cases hop
    · rw [uploadText_error E query w e hres]; rfl
  | ok l =>
    refine ⟨l.map (fun f => FsOp.readFile (pathJoin "uploads" f)), ?_, ?_, ?_⟩
    · rw [uploadText_ok E query w l hres, readImages_snd]; rfl
    · intro op hop
      obtain ⟨f, hmem, hf⟩ := List.mem_map.mp hop
      exact ⟨f, ⟨l, rfl, hmem⟩, hf.symm⟩
    · rw [uploadText_ok E query w l hres, readImages_snd]; rfl

theorem uploadImage_ops (E : Env) (w : World) (dirname : String) (now : Nat) (image : JsVal) :
    ∃ new, (uploadImage E dirname now image w).ops = w.ops ++ new ∧
      (∀ op ∈ new,
        (∃ f, (∃ l p fs, (E.imageQuery p fs).1 = .ok l ∧ f ∈ l) ∧
          op = FsOp.readFile (pathJoin "uploads" f)) ∨
        (∃ data, op = FsOp.writeFile (queryFilePath dirname now) data) ∨
        op = FsOp.unlink (queryFilePath dirname now)) ∧
      (∀ d, d ≠ tempImagePath dirname → (∀ p fs, (E.imageQuery p fs).2 d = fs d) →
        (uploadImage E dirname now image w).fs d = w.fs d) := by
  have hnone : ∀ w' : World, w'.ops = w.ops → w'.fs = w.fs →
      ∃ new, w'.ops = w.ops ++ new ∧
      (∀ op ∈ new,
        (∃ f, (∃ l p fs, (E.imageQuery p fs).1 = .ok l ∧ f ∈ l) ∧
          op = FsOp.readFile (pathJoin "uploads" f)) ∨
        (∃ data, op = FsOp.writeFile (queryFilePath dirname now) data) ∨
        op = FsOp.unlink (queryFilePath dirname now)) ∧
      (∀ d, d ≠ tempImagePath dirname → (∀ p fs, (E.imageQuery p fs).2 d = fs d) →
        w'.fs d = w.fs d) := by
    intro w' h1 h2
    refine ⟨[], by rw [h1, List.append_nil], ?_, ?_⟩
    · intro op hop
      cases hop
    · intro d _ _
      rw [h2]
  cases image with
  | undefined => exact hnone _ rfl rfl
  | null => exact hnone _ rfl rfl
  | other t d => cases t <;> exact hnone _ rfl rfl
  | str s =>
    by_cases hs : s = ""
    · subst hs
      exact hnone _ rfl rfl
    · cases hw : FS.writeFile w.fs (queryFilePath dirname now)
          (E.bufferFromBase64 (stripDataUrlPrefix s)) with
      | none =>
        rw [uploadImage_write_failed E dirname now s w hs hw]
        refine ⟨[FsOp.writeFile (queryFilePath dirname now)
          (E.bufferFromBase64 (stripDataUrlPrefix s))], rfl, ?_, ?_⟩
        · intro op hop
          rw [List.mem_singleton] at hop
          exact Or.inr (Or.inl ⟨_, hop⟩)
        · intro d _ _
          rfl
      | some fs1 =>
        have hfs1 : ∀ d, d ≠ tempImagePath dirname → fs1 d = w.fs d :=
          fun d hd => FS.writeFile_other w.fs fs1 _ _ hw d hd
        rw [uploadImage_written E dirname now s w fs1 hs hw]
        cases hres : (E.imageQuery (queryFilePath dirname now) fs1).1 with
        | error e =>
          refine ⟨[FsOp.writeFile (queryFilePath dirname now)
            (E.bufferFromBase64 (stripDataUrlPrefix s))], rfl, ?_, ?_⟩
          · intro op hop
            rw [List.mem_singleton] at hop
            exact Or.inr (Or.inl ⟨_, hop⟩)
          · intro d hd hq
            exact (hq _ fs1).trans (hfs1 d hd)
        | ok l =>
          rw [imageQueryCallback_ok]
          refine ⟨FsOp.writeFile (queryFilePath dirname now)
              (E.bufferFromBase64 (stripDataUrlPrefix s)) ::
            (l.map (fun f => FsOp.readFile (pathJoin "uploads" f)) ++
              [FsOp.unlink (queryFilePath dirname now)]), ?_, ?_, ?_⟩
          · rw [unlink_ops, readImages_snd]
            simp [World.send]
          · intro op hop
            rcases List.mem_cons.mp hop with rfl | hop
            · exact Or.inr (Or.inl ⟨_, rfl⟩)
            · rcases List.mem_append.mp hop with hop | hop
              · obtain ⟨f, hmem, hf⟩ := List.mem_map.mp hop
                exact Or.inl ⟨f, ⟨l, _, fs1, hres, hmem⟩, hf.symm⟩
              · rw [List.mem_singleton] at hop
                exact Or.inr (Or.inr hop)
          · intro d hd hq
            rw [unlink_fs_other _ (queryFilePath dirname now) d hd, readImages_snd]
            exact (hq _ fs1).trans (hfs1 d hd)

/-- C8 fails as stated: when `textQuery` ranks the name `../index/clip.index`, the text
handler reads `index/clip.index`, a file of the index directory and not of uploads, and
answers with its contents. -/
theorem query_handlers_read_counterexample :
    (uploadText (rankingEnv ["../index/clip.index"]) (.str "a cat")
      (World.initial filesEverywhere)).ops = [FsOp.readFile ⟨"index", "clip.index"⟩] ∧
    (uploadText (rankingEnv ["../index/clip.index"]) (.str "a cat")
      (World.initial filesEverywhere)).sent =
      [⟨200, .images [⟨"../index/clip.index", "data:image/png;base64,CQ=="⟩]⟩] := by
  decide

/-- C8, amended: the file operations a query handler performs are reads of the files at
`path.join('uploads', name)` for the names the query script ranked, which are files of the
uploads directory whenever the name is a single path component, and, for the image handler,
the write and the unlink of its own `query-<timestamp>.png` in its temp directory, which is
neither the uploads nor the index directory. So the handlers create, overwrite and delete
nothing in uploads or index: the text handler leaves the file system as `textQuery` left
it, and the image handler leaves every directory other than its temp directory as it found
it, provided `imageQuery` does. -/
theorem query_handlers_file_operations (E : Env) (w : World) :
    (∀ query, ∃ new, (uploadText E query w).ops = w.ops ++ new ∧
      (∀ op ∈ new, ∃ f, (∃ l, (E.textQuery query w.fs).1 = .ok l ∧ f ∈ l) ∧
        op = FsOp.readFile (pathJoin "uploads" f)) ∧
      (uploadText E query w).fs = (E.textQuery query w.fs).2) ∧
    (∀ dirname now image, ∃ new, (uploadImage E dirname now image w).ops = w.ops ++ new ∧
      (∀ op ∈ new,
        (∃ f, (∃ l p fs, (E.imageQuery p fs).1 = .ok l ∧ f ∈ l) ∧
          op = FsOp.readFile (pathJoin "uploads" f)) ∨
        (∃ data, op = FsOp.writeFile (queryFilePath dirname now) data) ∨
        op = FsOp.unlink (queryFilePath dirname now)) ∧
      (∀ d, d ≠ tempImagePath dirname → (∀ p fs, (E.imageQuery p fs).2 d = fs d) →
        (uploadImage E dirname now image w).fs d = w.fs d) ∧
      tempImagePath dirname ≠ "uploads" ∧ tempImagePath dirname ≠ "index") ∧
    (∀ f, isSingleComponent f = true → pathJoin "uploads" f = ⟨"uploads", f⟩) := by
  refine ⟨fun query => uploadText_ops E w query, fun dirname now image => ?_,
    fun f hf => pathJoin_uploads_single f hf⟩
  obtain ⟨new, h1, h2, h3⟩ := uploadImage_ops E w dirname now image
  exact ⟨new, h1, h2, h3, tempImagePath_ne dirname⟩

/-- The amended C8 on a successful image query: the upload store and the index area are as
before, and the ranked name `1-2-a.png` is read from the uploads directory. -/
theorem query_handlers_file_operations_witness :
    (uploadImage (rankingEnv ["1-2-a.png"]) "/srv/backend" 1700000000000
      (.str "data:image/png;base64,iVBORw==") (World.initial twoUploads)).fs "uploads" =
      twoUploads "uploads" ∧
    (uploadImage (rankingEnv ["1-2-a.png"]) "/srv/backend" 1700000000000
      (.str "data:image/png;base64,iVBORw==") (World.initial twoUploads)).fs "index" =
      twoUploads "index" ∧
    pathJoin "uploads" "1-2-a.png" = ⟨"uploads", "1-2-a.png"⟩ := by
  have h := query_handlers_file_operations (rankingEnv ["1-2-a.png"])
    (World.initial twoUploads)
  obtain ⟨_, _, _, h3, h4, h5⟩ :=
    h.2.1 "/srv/backend" 1700000000000 (.str "data:image/png;base64,iVBORw==")
  exact ⟨h3 "uploads" (Ne.symm h4) (fun _ _ => rfl), h3 "index" (Ne.symm h5) (fun _ _ => rfl),
    h.2.2 "1-2-a.png" (by decide)⟩

/-! ## The query file after an image query -/

/-- C5 at a query that reports an error: the temp directory is empty before the request;
the handler answers 500 from line 102 and the query file it wrote is still in the temp
directory afterwards, the `unlink` of line 123 not having run. The same request with a
query that succeeds leaves the temp directory empty. -/
theorem uploadImage_error_keeps_query_file :
    twoUploads "/srv/backend/temp" = some [] ∧
    (uploadImage (failingEnv "model unavailable") "/srv/backend" 1700000000000
      (.str "data:image/png;base64,iVBORw==") (World.initial twoUploads)).sent =
      [⟨500, .text "Failed to process image query."⟩] ∧
    (uploadImage (failingEnv "model unavailable") "/srv/backend" 1700000000000
      (.str "data:image/png;base64,iVBORw==") (World.initial twoUploads)).fs
        "/srv/backend/temp" =
      some [("query-1700000000000.png", Node.file [137, 80, 78, 71])] ∧
    (uploadImage (failingEnv "model unavailable") "/srv/backend" 1700000000000
      (.str "data:image/png;base64,iVBORw==") (World.initial twoUploads)).ops =
      [FsOp.writeFile ⟨"/srv/backend/temp", "query-1700000000000.png"⟩ [137, 80, 78, 71]] ∧
    (uploadImage (rankingEnv ["1-2-a.png"]) "/srv/backend" 1700000000000
      (.str "data:image/png;base64,iVBORw==") (World.initial twoUploads)).fs
        "/srv/backend/temp" = some [] := by
  decide

end ClipSearch
